import Mathlib

/-!
Shallow embedding of the Outlook CSV Scheduler (src/main.py): the status
lookup table, the CSV loader with Python dict-reader semantics, per-row
date-time validation mirroring strptime with format YYYY-MM-DD HH:MM, the
submission loop over an abstract external calendar host, and the
file-selection state update.  Theorems below settle the specification
claims against these definitions.
-/

/-- Python str.strip for the ASCII whitespace range: drop leading and
trailing whitespace characters from the character list of the string. -/
def pyStrip (s : String) : String :=
  ⟨((s.data.dropWhile Char.isWhitespace).reverse.dropWhile Char.isWhitespace).reverse⟩

/-- Python str.lower over the ASCII range: lowercase each character. -/
def pyLower (s : String) : String :=
  ⟨s.data.map Char.toLower⟩

/-- STATUS_MAP from main.py: status synonym (Japanese and English) to
Outlook busy code, in source insertion order. -/
def STATUS_MAP : List (String × Nat) :=
  [("休み", 3), ("ooo", 3), ("不在", 3), ("outofoffice", 3),
   ("外出", 2), ("忙しい", 2), ("busy", 2),
   ("仮", 1), ("tentative", 1),
   ("在席", 0), ("空き", 0), ("free", 0),
   ("他所勤務", 4), ("workingelsewhere", 4)]

/-- map_busy_status from main.py: strip and lowercase the input; empty key
gives 2; otherwise dictionary lookup with default 2. -/
def map_busy_status (value : String) : Nat :=
  let key := pyLower (pyStrip value)
  if key = "" then 2
  else ((STATUS_MAP.lookup key).getD 2)

/-- EXPECTED_FIELDS from main.py: the seven required CSV header names. -/
def EXPECTED_FIELDS : List String :=
  ["Date", "Start", "End", "Subject", "Status", "Location", "Body"]

/-- ScheduleRow dataclass from main.py. -/
structure ScheduleRow where
  row_number : Nat
  date : String
  start : String
  end_ : String
  subject : String
  status : String
  location : String
  body : String
  busy : Nat
deriving DecidableEq, Repr

/-- A date-time value as produced by datetime.strptime with format
YYYY-MM-DD HH:MM (seconds and finer are always zero here). -/
structure DT where
  year : Nat
  month : Nat
  day : Nat
  hour : Nat
  minute : Nat
deriving DecidableEq, Repr

/-- Chronological key for a DT.  On values produced by the parser the
component bounds (month < 13, day < 32, hour < 24, minute < 60) make this
encoding order-isomorphic to datetime comparison. -/
def DT.toNat (d : DT) : Nat :=
  (((d.year * 13 + d.month) * 32 + d.day) * 24 + d.hour) * 60 + d.minute

/-- Numeric value of a decimal digit character. -/
def dval (c : Char) : Nat := c.toNat - 48

/-- Four mandatory decimal digits, as the strptime directive for the year
(regex: four times a digit). -/
def parse4Y : List Char → Option (Nat × List Char)
  | a :: b :: c :: d :: rest =>
      if a.isDigit && b.isDigit && c.isDigit && d.isDigit then
        some ((((dval a * 10 + dval b) * 10 + dval c) * 10 + dval d), rest)
      else none
  | _ => none

/-- One mandatory literal character. -/
def expectC (ch : Char) : List Char → Option (List Char)
  | c :: rest => if c = ch then some rest else none
  | [] => none

/-- Two-digits-preferred numeric field, as the strptime directives for
month, day, hour and minute compile to regex alternations trying the
two-digit alternatives before the single-digit one.  validTwo and validOne
state which two-digit and one-digit values the alternation accepts.
Preferring two digits is equivalent to the regex with backtracking because
the character following each such field (a dash, a colon, whitespace, or
end of input) is never a digit. -/
def parse21 (validTwo validOne : Nat → Bool) : List Char → Option (Nat × List Char)
  | a :: b :: rest =>
      if a.isDigit && b.isDigit && validTwo (dval a * 10 + dval b) then
        some (dval a * 10 + dval b, rest)
      else if a.isDigit && validOne (dval a) then
        some (dval a, b :: rest)
      else none
  | [a] => if a.isDigit && validOne (dval a) then some (dval a, []) else none
  | [] => none

/-- strptime month directive: two digits 01..12, or a single digit 1..9. -/
def parseMonthC : List Char → Option (Nat × List Char) :=
  parse21 (fun v => 1 ≤ v && v ≤ 12) (fun v => 1 ≤ v)

/-- strptime day directive: two digits 01..31, or a single digit 1..9. -/
def parseDayC : List Char → Option (Nat × List Char) :=
  parse21 (fun v => 1 ≤ v && v ≤ 31) (fun v => 1 ≤ v)

/-- strptime hour directive: two digits 00..23, or any single digit. -/
def parseHourC : List Char → Option (Nat × List Char) :=
  parse21 (fun v => v ≤ 23) (fun _ => true)

/-- strptime minute directive: two digits 00..59, or any single digit. -/
def parseMinC : List Char → Option (Nat × List Char) :=
  parse21 (fun v => v ≤ 59) (fun _ => true)

/-- Whitespace in a strptime format matches one or more whitespace
characters in the data. -/
def skipWs1 : List Char → Option (List Char)
  | c :: rest =>
      if c.isWhitespace then some (rest.dropWhile Char.isWhitespace) else none
  | [] => none

/-- Gregorian leap-year rule as used by Python datetime. -/
def isLeap (y : Nat) : Bool := y % 4 == 0 && (y % 100 != 0 || y % 400 == 0)

/-- Days in a month, as validated by the Python datetime constructor. -/
def daysInMonth (y m : Nat) : Nat :=
  if m = 2 then (if isLeap y then 29 else 28)
  else if m = 4 ∨ m = 6 ∨ m = 9 ∨ m = 11 then 30 else 31

/-- datetime.strptime(s, "%Y-%m-%d %H:%M") over the character list: the
whole input must be consumed, and the matched numbers must form a valid
datetime (year at least 1, day within the month). -/
def parseYMDHM (cs : List Char) : Option DT := do
  let (y, cs1) ← parse4Y cs
  let cs2 ← expectC '-' cs1
  let (m, cs3) ← parseMonthC cs2
  let cs4 ← expectC '-' cs3
  let (d, cs5) ← parseDayC cs4
  let cs6 ← skipWs1 cs5
  let (h, cs7) ← parseHourC cs6
  let cs8 ← expectC ':' cs7
  let (mi, cs9) ← parseMinC cs8
  if cs9 = [] ∧ 1 ≤ y ∧ d ≤ daysInMonth y m then
    some ⟨y, m, d, h, mi⟩
  else none

/-- datetime.strptime(s, "%Y-%m-%d %H:%M") on a string, returning none
where Python raises ValueError. -/
def strptimeYMDHM (s : String) : Option DT := parseYMDHM s.data

/-- The row-local validation failures of _parse_datetimes in main.py. -/
inductive RowError
  | dateEmpty
  | startEndInvalid
  | endNotAfterStart
deriving DecidableEq, Repr

/-- The error text main.py attaches to each row-local failure. -/
def RowError.message : RowError → String
  | .dateEmpty => "Date が空です"
  | .startEndInvalid => "Start/End 不正"
  | .endNotAfterStart => "End は Start より後である必要があります"

/-- _parse_datetimes from main.py: empty date, then empty start or end,
then strptime of date plus start and date plus end, then the strict
ordering check end after start. -/
def _parse_datetimes (row : ScheduleRow) : Except RowError (DT × DT) :=
  if row.date = "" then .error .dateEmpty
  else if row.start = "" ∨ row.end_ = "" then .error .startEndInvalid
  else
    match strptimeYMDHM (row.date ++ " " ++ row.start),
          strptimeYMDHM (row.date ++ " " ++ row.end_) with
    | some s, some e =>
        if e.toNat ≤ s.toNat then .error .endNotAfterStart else .ok (s, e)
    | _, _ => .error .startEndInvalid

instance {ε α : Type} [DecidableEq ε] [DecidableEq α] : DecidableEq (Except ε α)
  | .error a, .error b => decidable_of_iff (a = b) (by simp)
  | .ok a, .ok b => decidable_of_iff (a = b) (by simp)
  | .error _, .ok _ => isFalse (by simp)
  | .ok _, .error _ => isFalse (by simp)

/-- A value of the per-row dict built by csv.DictReader: a string from the
record, None for a required field the short record left unset (restval),
or the list of surplus fields a long record stores under the restkey. -/
inductive CellVal
  | s (v : String)
  | missing
  | extras (vs : List String)
deriving DecidableEq, Repr

/-- The key-value assignments DictReader performs for one record: zip of
header and record (some), then None (restval) for header names beyond the
record's length. -/
def dictPairs (header record : List String) : List (String × Option String) :=
  (header.zip record).map (fun p => (p.1, some p.2))
    ++ (header.drop record.length).map (fun k => (k, (none : Option String)))

/-- Python dict assignment: replace the value in place if the key exists,
else append the binding. -/
def dictInsert (d : List (String × Option String)) (k : String) (v : Option String) :
    List (String × Option String) :=
  if d.any (fun p => p.1 == k) then
    d.map (fun p => if p.1 == k then (k, v) else p)
  else d ++ [(k, v)]

/-- Build a Python dict (unique keys, first-insertion order, last value
wins) from a list of assignments. -/
def buildDict (pairs : List (String × Option String)) : List (String × Option String) :=
  pairs.foldl (fun d p => dictInsert d p.1 p.2) []

/-- raw.get(key) on the DictReader row: None both when the key is absent
and when its stored value is None. -/
def dictGet (header record : List String) (k : String) : Option String :=
  ((buildDict (dictPairs header record)).lookup k).join

/-- raw.values() of the DictReader row, as seen by the blank-row test: the
dict values in insertion order, followed by the restkey's list of surplus
fields when the record is longer than the header. -/
def dictCells (header record : List String) : List CellVal :=
  (buildDict (dictPairs header record)).map
      (fun p => match p.2 with | some v => CellVal.s v | none => CellVal.missing)
    ++ (if header.length < record.length then
          [CellVal.extras (record.drop header.length)] else [])

/-- any((value or "").strip() for value in raw.values()): short-circuits at
the first non-blank string; a None value strips to empty; reaching the
restkey's non-empty list raises AttributeError (modelled as an error),
because a non-empty list is truthy and has no strip method. -/
def blankTest : List CellVal → Except Unit Bool
  | [] => .ok false
  | .s v :: rest => if pyStrip v ≠ "" then .ok true else blankTest rest
  | .missing :: rest => blankTest rest
  | .extras vs :: rest => if vs.isEmpty then blankTest rest else .error ()

/-- The value of the blank-row test on a record that triggers no
AttributeError: true when some cell strips to a non-empty string. -/
def anyNonBlank : List CellVal → Bool
  | [] => false
  | .s v :: rest => if pyStrip v ≠ "" then true else anyNonBlank rest
  | .missing :: rest => anyNonBlank rest
  | .extras vs :: rest => if vs.isEmpty then anyNonBlank rest else true

/-- The file-level failures of _load_csv: the two ValueError raises of
main.py, plus the uncaught AttributeError the blank-row test raises when a
record longer than the header has only blank values under the header's
names (typeCrash carries the 1-based record number). -/
inductive LoadError
  | noHeader
  | missingFields (missing : List String)
  | typeCrash (rowIndex : Nat)
deriving DecidableEq, Repr

/-- Whether the failure is one of the ValueError raises select_csv
catches and shows in a dialog. -/
def LoadError.isValueError : LoadError → Bool
  | .typeCrash _ => false
  | _ => true

/-- The message of each file-level failure (for typeCrash, the Python
exception text). -/
def LoadError.message : LoadError → String
  | .noHeader => "CSVヘッダを検出できません。"
  | .missingFields missing =>
      "CSVヘッダが不正です。欠損: " ++ String.intercalate ", " missing
  | .typeCrash _ => "AttributeError"

/-- One kept row: every required field fetched with raw.get, defaulted to
the empty string, stripped; busy derived from the stripped status. -/
def mkRow (header record : List String) (idx : Nat) : ScheduleRow :=
  { row_number := idx
    date := pyStrip ((dictGet header record "Date").getD "")
    start := pyStrip ((dictGet header record "Start").getD "")
    end_ := pyStrip ((dictGet header record "End").getD "")
    subject := pyStrip ((dictGet header record "Subject").getD "")
    status := pyStrip ((dictGet header record "Status").getD "")
    location := pyStrip ((dictGet header record "Location").getD "")
    body := pyStrip ((dictGet header record "Body").getD "")
    busy := map_busy_status (pyStrip ((dictGet header record "Status").getD "")) }

/-- The enumerate(reader, start=2) loop of _load_csv over the records the
DictReader yields: skip (but still count) records whose blank test is
false, keep the rest; an AttributeError aborts the whole load. -/
def loadRows (header : List String) : Nat → List (List String) → Except LoadError (List ScheduleRow)
  | _, [] => .ok []
  | idx, r :: rest =>
      match blankTest (dictCells header r) with
      | .error _ => .error (.typeCrash idx)
      | .ok false => loadRows header (idx + 1) rest
      | .ok true =>
          (loadRows header (idx + 1) rest).map (fun rs => mkRow header r idx :: rs)

/-- _load_csv from main.py over the parsed CSV records.  An empty file has
no header (fieldnames is None); the first record, even an empty one, is
the header; the missing required fields are checked in EXPECTED_FIELDS
order; the DictReader silently drops completely empty records before the
row loop numbers what it yields, starting at 2. -/
def _load_csv : List (List String) → Except LoadError (List ScheduleRow)
  | [] => .error .noHeader
  | header :: body =>
      let missing := EXPECTED_FIELDS.filter (fun f => !(header.contains f))
      if missing.isEmpty then
        loadRows header 2 (body.filter (fun r => !r.isEmpty))
      else .error (.missingFields missing)

/-- One line of the processing log, with its exact source text recovered
by LogLine.render. -/
inductive LogLine
  | startupFail (exc : String)
  | rowFail (n : Nat) (e : RowError)
  | createFail (n : Nat) (exc : String)
  | okLine (date startT endT subject : String) (busy : Nat)
  | csvLoaded (n : Nat)
  | runEnd
deriving DecidableEq, Repr

/-- The exact f-string main.py appends for each log line. -/
def LogLine.render : LogLine → String
  | .startupFail exc => "[NG] Outlook起動に失敗: " ++ exc
  | .rowFail n e => "[NG] 行" ++ toString n ++ " " ++ e.message
  | .createFail n exc => "[NG] 行" ++ toString n ++ " Outlook登録失敗: " ++ exc
  | .okLine d s e subj busy =>
      "[OK] " ++ d ++ " " ++ s ++ "-" ++ e ++ " "
        ++ (if subj = "" then "(件名なし)" else subj) ++ " BusyStatus=" ++ toString busy
  | .csvLoaded n => "CSV読込: " ++ toString n ++ "件を取得"
  | .runEnd => "予定登録を終了"

/-- Whether the line reports a failure (rendered with the [NG] marker). -/
def LogLine.isFailure : LogLine → Bool
  | .startupFail _ => true
  | .rowFail _ _ => true
  | .createFail _ _ => true
  | _ => false

/-- Whether the line reports a per-row success (rendered with [OK]). -/
def LogLine.isSuccess : LogLine → Bool
  | .okLine _ _ _ _ _ => true
  | _ => false

/-- The external calendar host: the Dispatch call that may fail, and the
whole CreateItem-assign-Save sequence for one row, which may fail with
host-specific error text. -/
structure Host where
  dispatch : Except String Unit
  create : ScheduleRow → DT × DT → Except String Unit

/-- The per-row loop of _register_appointments: a validation failure logs
one [NG] line and continues; otherwise the host creation is attempted
(counted), logging one [OK] line or one [NG] line.  Returns the log lines
in order and the number of creation attempts. -/
def registerLoop (host : Host) : List ScheduleRow → List LogLine × Nat
  | [] => ([], 0)
  | row :: rest =>
      match _parse_datetimes row with
      | .error e =>
          let (l, c) := registerLoop host rest
          (.rowFail row.row_number e :: l, c)
      | .ok dts =>
          match host.create row dts with
          | .ok _ =>
              let (l, c) := registerLoop host rest
              (.okLine row.date row.start row.end_ row.subject row.busy :: l, c + 1)
          | .error exc =>
              let (l, c) := registerLoop host rest
              (.createFail row.row_number exc :: l, c + 1)

/-- _register_appointments from main.py: a Dispatch failure logs one
startup failure and returns, the finally block always appending the run
end line; otherwise the rows are processed in order.  Returns the log and
the number of appointment-creation attempts. -/
def _register_appointments (host : Host) (rows : List ScheduleRow) : List LogLine × Nat :=
  match host.dispatch with
  | .error exc => ([.startupFail exc, .runEnd], 0)
  | .ok _ =>
      let (l, c) := registerLoop host rows
      (l ++ [.runEnd], c)

/-- The application state select_csv touches: the current file path and
the loaded row list. -/
structure AppState where
  csv_path : Option String
  rows : List ScheduleRow
deriving DecidableEq, Repr

/-- select_csv from main.py.  The choice is the file-picker outcome: none
when cancelled (return, nothing changes); otherwise the chosen path with
the file's parsed records.  A ValueError from the load shows a dialog
(second component) and leaves the state unchanged; the uncaught
AttributeError also leaves the state unchanged but shows no dialog; on
success the path and row list are replaced and one load line is logged. -/
def select_csv (st : AppState) (choice : Option (String × List (List String))) :
    AppState × Option String × List LogLine :=
  match choice with
  | none => (st, none, [])
  | some (path, records) =>
      match _load_csv records with
      | .error e => (st, if e.isValueError then some e.message else none, [])
      | .ok rows => ({ csv_path := some path, rows := rows }, none, [.csvLoaded rows.length])

theorem lookup_mem_pairs (l : List (String × Nat)) (k : String) (c : Nat)
    (h : l.lookup k = some c) : (k, c) ∈ l := by
  induction l with
  | nil => simp [List.lookup] at h
  | cons p t ih =>
      obtain ⟨a, b⟩ := p
      rw [List.lookup] at h
      by_cases hk : k = a
      · subst hk
        simp at h
        simp [h]
      · have : (k == a) = false := beq_eq_false_iff_ne.mpr hk
        rw [this] at h
        exact List.mem_cons_of_mem _ (ih h)

theorem lookup_STATUS_MAP_range (k : String) (c : Nat)
    (h : STATUS_MAP.lookup k = some c) : c ∈ [0, 1, 2, 3, 4] := by
  have hmem := lookup_mem_pairs STATUS_MAP k c h
  have hc : c ∈ STATUS_MAP.map Prod.snd := List.mem_map_of_mem Prod.snd hmem
  fin_cases hc <;> decide

/-- Claim C1: the busy-status mapper is total and deterministic on strings:
whenever the stripped, lowercased form of the input is a key of STATUS_MAP
it returns that key's code; for every other input (the empty string
included) it returns 2; and its result is always one of 0, 1, 2, 3, 4. -/
theorem c1_map_busy_status_total (s : String) :
    (∀ c, STATUS_MAP.lookup (pyLower (pyStrip s)) = some c → map_busy_status s = c) ∧
    (STATUS_MAP.lookup (pyLower (pyStrip s)) = none → map_busy_status s = 2) ∧
    map_busy_status s ∈ [0, 1, 2, 3, 4] := by
  refine ⟨?_, ?_, ?_⟩
  · intro c h
    by_cases hk : pyLower (pyStrip s) = ""
    · rw [hk] at h
      have : STATUS_MAP.lookup "" = (none : Option Nat) := by decide
      rw [this] at h
      cases h
    · simp [map_busy_status, hk, h]
  · intro h
    by_cases hk : pyLower (pyStrip s) = ""
    · simp [map_busy_status, hk]
    · simp [map_busy_status, hk, h]
  · by_cases hk : pyLower (pyStrip s) = ""
    · simp [map_busy_status, hk]
    · cases hl : STATUS_MAP.lookup (pyLower (pyStrip s)) with
      | none => simp [map_busy_status, hk, hl]
      | some c =>
          have : map_busy_status s = c := by simp [map_busy_status, hk, hl]
          rw [this]
          exact lookup_STATUS_MAP_range _ c hl

/-- Witness for C1 at the input " OOO ", whose stripped lowercase form is
the out-of-office key, mapped to code 3. -/
theorem c1_witness :
    STATUS_MAP.lookup (pyLower (pyStrip " OOO ")) = some 3 ∧ map_busy_status " OOO " = 3 :=
  ⟨by decide, (c1_map_busy_status_total " OOO ").1 3 (by decide)⟩

/-- Claim C2 (code bug): a data row longer than the header whose
header-named fields are all blank makes the blank-row test reach the
restkey's list of surplus fields, on which calling strip raises an
uncaught AttributeError: a third fatal failure point of the load besides
the two FormatError raises.  The theorem evaluates the load at such an
input: a valid seven-field header followed by a row of eight empty fields
(a line of seven commas). -/
theorem c2_extra_column_crash :
    _load_csv [EXPECTED_FIELDS, ["", "", "", "", "", "", "", "x"]]
      = .error (.typeCrash 2) ∧
    _load_csv [EXPECTED_FIELDS, ["", "", "", "", "", "", "", ""]]
      = .error (.typeCrash 2) := by decide

/-- Claim C4: whenever date, start and end are non-empty and both
concatenations parse under YYYY-MM-DD HH:MM with end strictly later than
start, per-row validation succeeds with exactly those two timestamps. -/
theorem c4_valid_row (row : ScheduleRow) (s e : DT)
    (hd : row.date ≠ "") (hs : row.start ≠ "") (he : row.end_ ≠ "")
    (hps : strptimeYMDHM (row.date ++ " " ++ row.start) = some s)
    (hpe : strptimeYMDHM (row.date ++ " " ++ row.end_) = some e)
    (hlt : s.toNat < e.toNat) :
    _parse_datetimes row = .ok (s, e) := by
  simp [_parse_datetimes, hd, hs, he, hps, hpe, Nat.not_le.mpr hlt]

/-- Witness for C4 at the spec's concrete instance: date 2024-05-01, start
09:00, end 10:00 validate to the timestamps 2024-05-01T09:00 and
2024-05-01T10:00. -/
theorem c4_witness :
    _parse_datetimes ⟨2, "2024-05-01", "09:00", "10:00", "mtg", "busy", "", "", 2⟩
      = .ok (⟨2024, 5, 1, 9, 0⟩, ⟨2024, 5, 1, 10, 0⟩) :=
  c4_valid_row _ _ _ (by decide) (by decide) (by decide) (by decide) (by decide) (by decide)

/-- Claim C6: a row with an empty date fails validation with the empty-date
reason whatever its other fields hold, and the submission loop logs that
failure and moves on without attempting a creation for it. -/
theorem c6_empty_date (row : ScheduleRow) (h : row.date = "") :
    _parse_datetimes row = .error .dateEmpty ∧
    ∀ host rest, registerLoop host (row :: rest) =
      (.rowFail row.row_number .dateEmpty :: (registerLoop host rest).1,
       (registerLoop host rest).2) := by
  have hp : _parse_datetimes row = .error .dateEmpty := by simp [_parse_datetimes, h]
  exact ⟨hp, fun host rest => by simp [registerLoop, hp]⟩

/-- Witness for C6: a row with every other field populated but an empty
date is rejected with the empty-date reason. -/
theorem c6_witness :
    _parse_datetimes ⟨2, "", "09:00", "10:00", "mtg", "busy", "room", "note", 2⟩
      = .error .dateEmpty :=
  (c6_empty_date _ rfl).1

/-- Claim C7: when the Dispatch of the calendar host fails, the whole run
aborts: no creation call is made for any row, and the log holds exactly
one failure line (followed by the unconditional run-end line). -/
theorem c7_dispatch_failure (host : Host) (rows : List ScheduleRow) (exc : String)
    (h : host.dispatch = .error exc) :
    _register_appointments host rows = ([.startupFail exc, .runEnd], 0) ∧
    (_register_appointments host rows).1.countP LogLine.isFailure = 1 := by
  have h1 : _register_appointments host rows = ([.startupFail exc, .runEnd], 0) := by
    simp [_register_appointments, h]
  rw [h1]
  exact ⟨rfl, rfl⟩

/-- Witness for C7: a host whose Dispatch fails with some error text
produces the single startup-failure line and zero creations, for a
non-empty row list. -/
theorem c7_witness :
    _register_appointments ⟨.error "COM error", fun _ _ => .ok ()⟩
        [⟨2, "2024-05-01", "09:00", "10:00", "A", "busy", "", "", 2⟩]
      = ([.startupFail "COM error", .runEnd], 0) ∧
    (_register_appointments ⟨.error "COM error", fun _ _ => .ok ()⟩
        [⟨2, "2024-05-01", "09:00", "10:00", "A", "busy", "", "", 2⟩]).1.countP
        LogLine.isFailure = 1 :=
  c7_dispatch_failure _ _ "COM error" rfl

/-- The three validated rows of claim C8's scenario. -/
def c8Rows : List ScheduleRow :=
  [⟨2, "2024-05-01", "09:00", "10:00", "A", "busy", "", "", 2⟩,
   ⟨3, "2024-05-01", "11:00", "12:00", "B", "busy", "", "", 2⟩,
   ⟨4, "2024-05-01", "13:00", "14:00", "C", "busy", "", "", 2⟩]

/-- A host that is available but fails creating exactly the second row of
the scenario. -/
def c8Host : Host :=
  ⟨.ok (), fun r _ => if r.row_number = 3 then .error "creation rejected" else .ok ()⟩

/-- Claim C8: with three validated rows where the host fails creating row
2 only, the run logs exactly two success lines and one failure line, in
source row order, all three creations are attempted, and the run reaches
its unconditional completion line. -/
theorem c8_row_isolation :
    _register_appointments c8Host c8Rows =
      ([.okLine "2024-05-01" "09:00" "10:00" "A" 2,
        .createFail 3 "creation rejected",
        .okLine "2024-05-01" "13:00" "14:00" "C" 2,
        .runEnd], 3) ∧
    (_register_appointments c8Host c8Rows).1.countP LogLine.isSuccess = 2 ∧
    (_register_appointments c8Host c8Rows).1.countP LogLine.isFailure = 1 := by decide

/-- Claim C9: a load is atomic for the application state: cancelling the
picker changes nothing, a failing load leaves the prior path and row list
untouched, and a successful load replaces the path and the whole row list
in one step. -/
theorem c9_load_atomicity (st : AppState) (path : String) (records : List (List String)) :
    select_csv st none = (st, none, []) ∧
    (∀ e, _load_csv records = .error e →
        (select_csv st (some (path, records))).1 = st) ∧
    (∀ rows, _load_csv records = .ok rows →
        select_csv st (some (path, records)) =
          ({ csv_path := some path, rows := rows }, none, [.csvLoaded rows.length])) := by
  refine ⟨rfl, ?_, ?_⟩
  · intro e h
    simp [select_csv, h]
  · intro rows h
    simp [select_csv, h]

/-- Witness for C9: a failing load (missing required headers) leaves a
previously populated state unchanged. -/
theorem c9_witness :
    (select_csv ⟨some "old.csv", [⟨2, "2024-05-01", "09:00", "10:00", "A", "busy", "", "", 2⟩]⟩
        (some ("new.csv", [["Date"]]))).1
      = ⟨some "old.csv", [⟨2, "2024-05-01", "09:00", "10:00", "A", "busy", "", "", 2⟩]⟩ :=
  (c9_load_atomicity _ "new.csv" _).2.1
    (.missingFields ["Start", "End", "Subject", "Status", "Location", "Body"]) (by decide)

/-- Claim C10: the blank-row test looks at every column of the record,
extra header columns included: a row blank in the seven required fields
but carrying a value in an extra Note column is kept, as a row whose seven
string fields are empty and whose busy code is 2. -/
theorem c10_extra_column_not_blank :
    _load_csv [EXPECTED_FIELDS ++ ["Note"], ["", "", "", "", "", "", "", "x"]]
      = .ok [⟨2, "", "", "", "", "", "", "", 2⟩] := by decide

/-- Records in 1-based source position order starting at a given index. -/
def withIndexFrom {α : Type} : Nat → List α → List (Nat × α)
  | _, [] => []
  | i, a :: as => (i, a) :: withIndexFrom (i + 1) as

theorem blankTest_of_no_extras (cells : List CellVal)
    (h : ∀ vs, CellVal.extras vs ∈ cells → vs = []) :
    blankTest cells = .ok (anyNonBlank cells) := by
  induction cells with
  | nil => rfl
  | cons c rest ih =>
      have hrest : ∀ vs, CellVal.extras vs ∈ rest → vs = [] :=
        fun vs hv => h vs (List.mem_cons_of_mem _ hv)
      cases c with
      | s v =>
          by_cases hv : pyStrip v ≠ ""
          · simp [blankTest, anyNonBlank, hv]
          · simp [blankTest, anyNonBlank, hv, ih hrest]
      | missing => simp [blankTest, anyNonBlank, ih hrest]
      | extras vs =>
          have : vs = [] := h vs (List.mem_cons_self _ _)
          subst this
          simp [blankTest, anyNonBlank, ih hrest]

theorem dictCells_no_extras (header record : List String)
    (hlen : record.length ≤ header.length) :
    ∀ vs, CellVal.extras vs ∈ dictCells header record → vs = [] := by
  intro vs hv
  unfold dictCells at hv
  rw [if_neg (by omega)] at hv
  simp at hv
  obtain ⟨a, b, -, hp⟩ := hv
  cases b <;> cases hp

theorem blankTest_of_short (header record : List String)
    (hlen : record.length ≤ header.length) :
    blankTest (dictCells header record) = .ok (anyNonBlank (dictCells header record)) :=
  blankTest_of_no_extras _ (dictCells_no_extras header record hlen)

theorem loadRows_eq (header : List String) (body : List (List String)) :
    ∀ idx : Nat, (∀ r ∈ body, r.length ≤ header.length) →
    loadRows header idx body =
      .ok (((withIndexFrom idx body).filter
              (fun p => anyNonBlank (dictCells header p.2))).map
            (fun p => mkRow header p.2 p.1)) := by
  induction body with
  | nil => intro idx h; rfl
  | cons r rest ih =>
      intro idx h
      have hr : r.length ≤ header.length := h r (List.mem_cons_self _ _)
      have hrest : ∀ x ∈ rest, x.length ≤ header.length :=
        fun x hx => h x (List.mem_cons_of_mem _ hx)
      rw [loadRows, blankTest_of_short header r hr, ih (idx + 1) hrest]
      by_cases hb : anyNonBlank (dictCells header r) = true
      · simp [withIndexFrom, List.filter, hb, Except.map]
      · rw [Bool.not_eq_true] at hb
        simp [withIndexFrom, List.filter, hb]

/-- Claim C3 (amended): over the records the reader yields — provided no
data record is completely empty (a blank line, which the DictReader skips
silently before numbering) and none is longer than the header (which can
crash the load) — every all-blank row is excluded from the result, each
kept row's row_number is its true 1-based source record number (the first
data record is number 2), unaffected by the rows the blank test skips, and
source order is preserved. -/
theorem c3_row_numbers (header : List String) (body : List (List String))
    (hmissing : EXPECTED_FIELDS.filter (fun f => !(header.contains f)) = [])
    (hne : ∀ r ∈ body, r ≠ [])
    (hlen : ∀ r ∈ body, r.length ≤ header.length) :
    _load_csv (header :: body) =
      .ok (((withIndexFrom 2 body).filter
              (fun p => anyNonBlank (dictCells header p.2))).map
            (fun p => mkRow header p.2 p.1)) := by
  have hfilter : body.filter (fun r => !r.isEmpty) = body := by
    rw [List.filter_eq_self]
    intro a ha
    simp [List.isEmpty_iff, hne a ha]
  simp only [_load_csv, hmissing, List.isEmpty_nil, if_pos]
  rw [hfilter]
  exact loadRows_eq header body 2 hlen

/-- Witness for C3: a whitespace-only row between the header and a real
row is excluded while the real row keeps its true record number 3. -/
theorem c3_witness :
    _load_csv [EXPECTED_FIELDS, [" ", "", "", "", "", "", ""],
        ["2024-05-01", "09:00", "10:00", "a", "", "", ""]] =
      .ok (((withIndexFrom 2 [[" ", "", "", "", "", "", ""],
              ["2024-05-01", "09:00", "10:00", "a", "", "", ""]]).filter
              (fun p => anyNonBlank (dictCells EXPECTED_FIELDS p.2))).map
            (fun p => mkRow EXPECTED_FIELDS p.2 p.1)) :=
  c3_row_numbers _ _ (by decide) (by decide) (by decide)

/-- Counterexample to claim C3 as stated: a completely empty record (a
blank line) is skipped by the DictReader before numbering, so the
following record — the second data record, true source record number 3 —
is kept with row_number 2; the claim requires row numbers to reflect true
source position unaffected by any skipped row. -/
theorem c3_counterexample :
    _load_csv [EXPECTED_FIELDS, [], ["2024-05-01", "09:00", "10:00", "a", "", "", ""]]
      = .ok [⟨2, "2024-05-01", "09:00", "10:00", "a", "", "", "", 2⟩] ∧ (2 : Nat) ≠ 3 := by
  decide

theorem getLast?_append_some (pre : List Char) {l : List Char} {a : Char}
    (h : l.getLast? = some a) : (pre ++ l).getLast? = some a := by
  have hne : l ≠ [] := by intro e; subst e; cases h
  rw [List.getLast?_append_of_ne_nil pre hne]
  exact h

theorem pair_some_snd {α β : Type} {x y : α} {r s : β}
    (h : some (x, r) = some (y, s)) : r = s :=
  congrArg Prod.snd (Option.some.inj h)

theorem parse4Y_suffix {cs rest : List Char} {y : Nat}
    (h : parse4Y cs = some (y, rest)) : ∃ pre, cs = pre ++ rest := by
  cases cs with
  | nil => exact Option.noConfusion h
  | cons a t1 =>
    cases t1 with
    | nil => exact Option.noConfusion h
    | cons b t2 =>
      cases t2 with
      | nil => exact Option.noConfusion h
      | cons c t3 =>
        cases t3 with
        | nil => exact Option.noConfusion h
        | cons d r =>
            have hred : parse4Y (a :: b :: c :: d :: r)
                = if a.isDigit && b.isDigit && c.isDigit && d.isDigit then
                    some ((((dval a * 10 + dval b) * 10 + dval c) * 10 + dval d), r)
                  else none := rfl
            rw [hred] at h
            split at h
            · exact ⟨[a, b, c, d], by rw [← pair_some_snd h]; rfl⟩
            · exact Option.noConfusion h

theorem expectC_suffix {ch : Char} {cs rest : List Char}
    (h : expectC ch cs = some rest) : ∃ pre, cs = pre ++ rest := by
  cases cs with
  | nil => exact Option.noConfusion h
  | cons c r =>
      have hred : expectC ch (c :: r) = if c = ch then some r else none := rfl
      rw [hred] at h
      split at h
      · exact ⟨[c], by rw [← Option.some.inj h]; rfl⟩
      · exact Option.noConfusion h

theorem parse21_suffix {v2 v1 : Nat → Bool} {cs rest : List Char} {v : Nat}
    (h : parse21 v2 v1 cs = some (v, rest)) : ∃ pre, cs = pre ++ rest := by
  cases cs with
  | nil => exact Option.noConfusion h
  | cons a t =>
    cases t with
    | nil =>
        have hred : parse21 v2 v1 [a]
            = if a.isDigit && v1 (dval a) then some (dval a, []) else none := rfl
        rw [hred] at h
        split at h
        · exact ⟨[a], by rw [← pair_some_snd h]; rfl⟩
        · exact Option.noConfusion h
    | cons b r =>
        have hred : parse21 v2 v1 (a :: b :: r)
            = if a.isDigit && b.isDigit && v2 (dval a * 10 + dval b) then
                some (dval a * 10 + dval b, r)
              else if a.isDigit && v1 (dval a) then some (dval a, b :: r)
              else none := rfl
        rw [hred] at h
        split at h
        · exact ⟨[a, b], by rw [← pair_some_snd h]; rfl⟩
        · split at h
          · exact ⟨[a], by rw [← pair_some_snd h]; rfl⟩
          · exact Option.noConfusion h

theorem skipWs1_suffix {cs rest : List Char} (h : skipWs1 cs = some rest) :
    ∃ pre, cs = pre ++ rest := by
  cases cs with
  | nil => exact Option.noConfusion h
  | cons c t =>
      have hred : skipWs1 (c :: t)
          = if c.isWhitespace then some (t.dropWhile Char.isWhitespace) else none := rfl
      rw [hred] at h
      split at h
      · refine ⟨c :: t.takeWhile Char.isWhitespace, ?_⟩
        rw [← Option.some.inj h]
        simp [List.takeWhile_append_dropWhile]
      · exact Option.noConfusion h

theorem parse21_last {v2 v1 : Nat → Bool} {cs : List Char} {v : Nat}
    (h : parse21 v2 v1 cs = some (v, [])) :
    ∃ a, cs.getLast? = some a ∧ a.isDigit = true := by
  cases cs with
  | nil => exact Option.noConfusion h
  | cons a t =>
    cases t with
    | nil =>
        have hred : parse21 v2 v1 [a]
            = if a.isDigit && v1 (dval a) then some (dval a, []) else none := rfl
        rw [hred] at h
        split at h
        · rename_i hcond
          simp only [Bool.and_eq_true] at hcond
          exact ⟨a, List.getLast?_singleton a, hcond.1⟩
        · exact Option.noConfusion h
    | cons b r =>
        have hred : parse21 v2 v1 (a :: b :: r)
            = if a.isDigit && b.isDigit && v2 (dval a * 10 + dval b) then
                some (dval a * 10 + dval b, r)
              else if a.isDigit && v1 (dval a) then some (dval a, b :: r)
              else none := rfl
        rw [hred] at h
        split at h
        · rename_i hcond
          simp only [Bool.and_eq_true] at hcond
          have hr : r = [] := pair_some_snd h
          subst hr
          exact ⟨b, by simp, hcond.1.2⟩
        · split at h
          · exact absurd (pair_some_snd h) (by simp)
          · exact Option.noConfusion h

theorem parseYMDHM_lastDigit {cs : List Char} {dt : DT}
    (h : parseYMDHM cs = some dt) :
    ∃ a, cs.getLast? = some a ∧ a.isDigit = true := by
  unfold parseYMDHM at h
  simp only [bind, Option.bind_eq_some] at h
  obtain ⟨⟨y, cs1⟩, h1, h⟩ := h
  obtain ⟨cs2, h2, h⟩ := h
  obtain ⟨⟨m, cs3⟩, h3, h⟩ := h
  obtain ⟨cs4, h4, h⟩ := h
  obtain ⟨⟨d, cs5⟩, h5, h⟩ := h
  obtain ⟨cs6, h6, h⟩ := h
  obtain ⟨⟨hr, cs7⟩, h7, h⟩ := h
  obtain ⟨cs8, h8, h⟩ := h
  obtain ⟨⟨mi, cs9⟩, h9, h⟩ := h
  dsimp only at h2 h4 h6 h8 h
  have hcs9 : cs9 = [] := by
    by_contra hne
    rw [if_neg (fun hc => hne hc.1)] at h
    cases h
  subst hcs9
  obtain ⟨a, ha, hdig⟩ := parse21_last h9
  obtain ⟨p8, e8⟩ := expectC_suffix h8
  obtain ⟨p7, e7⟩ := parse21_suffix h7
  obtain ⟨p6, e6⟩ := skipWs1_suffix h6
  obtain ⟨p5, e5⟩ := parse21_suffix h5
  obtain ⟨p4, e4⟩ := expectC_suffix h4
  obtain ⟨p3, e3⟩ := parse21_suffix h3
  obtain ⟨p2, e2⟩ := expectC_suffix h2
  obtain ⟨p1, e1⟩ := parse4Y_suffix h1
  refine ⟨a, ?_, hdig⟩
  rw [e1, e2, e3, e4, e5, e6, e7, e8]
  exact getLast?_append_some _ (getLast?_append_some _ (getLast?_append_some _
    (getLast?_append_some _ (getLast?_append_some _ (getLast?_append_some _
      (getLast?_append_some _ (getLast?_append_some _ ha)))))))

theorem strptime_no_trailing_space (s : String) (dt : DT)
    (h : strptimeYMDHM (s ++ " " ++ "") = some dt) : False := by
  unfold strptimeYMDHM at h
  obtain ⟨a, ha, hdig⟩ := parseYMDHM_lastDigit h
  have h1 : (" " : String).data = [' '] := rfl
  have h2 : ("" : String).data = [] := rfl
  rw [String.data_append, String.data_append, h1, h2, List.append_nil] at ha
  rw [List.getLast?_append_of_ne_nil _ (by simp), List.getLast?_singleton] at ha
  obtain rfl : (' ' : Char) = a := Option.some.inj ha
  exact absurd hdig (by decide)

/-- Claim C5: a row with a non-empty date whose two concatenations parse
but whose end is not strictly later than its start (equality included)
fails validation with the end-not-after-start reason, producing no
datetime, and the submission loop logs that failure and moves on to the
next row without attempting a creation for it. -/
theorem c5_end_not_after (row : ScheduleRow) (s e : DT)
    (hd : row.date ≠ "")
    (hps : strptimeYMDHM (row.date ++ " " ++ row.start) = some s)
    (hpe : strptimeYMDHM (row.date ++ " " ++ row.end_) = some e)
    (hle : e.toNat ≤ s.toNat) :
    _parse_datetimes row = .error .endNotAfterStart ∧
    ∀ host rest, registerLoop host (row :: rest) =
      (.rowFail row.row_number .endNotAfterStart :: (registerLoop host rest).1,
       (registerLoop host rest).2) := by
  have hs : row.start ≠ "" := by
    intro h0
    rw [h0] at hps
    exact strptime_no_trailing_space _ _ hps
  have he : row.end_ ≠ "" := by
    intro h0
    rw [h0] at hpe
    exact strptime_no_trailing_space _ _ hpe
  have hp : _parse_datetimes row = .error .endNotAfterStart := by
    simp [_parse_datetimes, hd, hs, he, hps, hpe, hle]
  exact ⟨hp, fun host rest => by simp [registerLoop, hp]⟩

/-- Witness for C5 at end equal to start: 09:00 to 09:00 on 2024-05-01 is
rejected with the end-not-after-start reason. -/
theorem c5_witness :
    _parse_datetimes ⟨2, "2024-05-01", "09:00", "09:00", "mtg", "busy", "", "", 2⟩
      = .error .endNotAfterStart :=
  (c5_end_not_after _ ⟨2024, 5, 1, 9, 0⟩ ⟨2024, 5, 1, 9, 0⟩
    (by decide) (by decide) (by decide) (by decide)).1

example : strptimeYMDHM "2024-05-01 09:00" = some ⟨2024, 5, 1, 9, 0⟩ := by decide
example : strptimeYMDHM "2024-5-1 9:0" = some ⟨2024, 5, 1, 9, 0⟩ := by decide
example : strptimeYMDHM "2024-02-30 09:00" = none := by decide
example : strptimeYMDHM "2024-05-01 24:00" = none := by decide
example : strptimeYMDHM "2024-05-01 " = none := by decide
example : map_busy_status " OOO " = 3 := by decide
example : map_busy_status "unknown" = 2 := by decide
example : map_busy_status "" = 2 := by decide
example : map_busy_status "休み" = 3 := by decide
example : _load_csv [] = .error .noHeader := by decide
example : _load_csv [["Date", "Start", "End", "Subject", "Location", "Body"]]
    = .error (.missingFields ["Status"]) := by decide
example : _load_csv [EXPECTED_FIELDS,
      ["2024-05-01", "09:00", "10:00", " mtg ", "busy", "", ""]]
    = .ok [⟨2, "2024-05-01", "09:00", "10:00", "mtg", "busy", "", "", 2⟩] := by decide
